import Mathlib

/-!
Shallow embedding of the Step Masters challenge verification engine.

The definitions below translate the challenge-logic portion of the
repository (sensor-driven challenge generation, threshold adaptation and
the four per-type detectors) into Lean.  JavaScript numbers are modelled
as real numbers, JavaScript null/undefined as Option, and the module-level
mutable tracking variables as an explicit TrackState record threaded
through each verification tick.  Date.now() is modelled as an explicit
input giving the wall-clock time of the tick in milliseconds.
-/

namespace StepMasters

open Real
open Classical
open List

/-- A 3-axis sensor vector, one reading of a single sensor family. -/
structure Vec3 where
  x : ℝ
  y : ℝ
  z : ℝ

/-- One sensor snapshot, as produced by getSensorData. -/
structure SensorData where
  accelerometer : Vec3
  gyroscope : Vec3
  magnetometer : Vec3

/-- A JavaScript value that can sit in the challenge field named
direction: a number for ROTATE templates, a compass string for
DIRECTION templates. -/
inductive JSVal where
  | num (v : ℝ)
  | str (s : String)

/-- A challenge object.  Fields absent from a given template are
modelled as none, matching undefined in the source. -/
structure Challenge where
  type : String := ""
  instruction : String := ""
  hint : String := ""
  count : Option ℝ := none
  intensity : Option ℝ := none
  degrees : Option ℝ := none
  direction : Option JSVal := none
  directions : Option (List String) := none
  duration : Option ℝ := none
  tolerance : Option ℝ := none

/-- Truthiness of an optional JavaScript number: undefined and 0 are
falsy, every other number is truthy. -/
def numTruthy : Option ℝ → Prop
  | none => False
  | some v => v ≠ 0

/-- The numeric value of an optional field, 0 when absent.  Only used
under a numTruthy guard, mirroring the short-circuit in the source. -/
def numVal : Option ℝ → ℝ
  | none => 0
  | some v => v

/-- The base threshold table THRESHOLDS of the source. -/
structure Thresholds where
  STEP_MAGNITUDE : ℝ
  ROTATION_SPEED : ℝ
  TILT_ANGLE : ℝ
  DIRECTION_TOLERANCE : ℝ

/-- Base thresholds: step magnitude 1.2, rotation speed 0.5, tilt angle
0.5, direction tolerance 20 degrees. -/
noncomputable def THRESHOLDS : Thresholds :=
  { STEP_MAGNITUDE := 1.2
    ROTATION_SPEED := 0.5
    TILT_ANGLE := 0.5
    DIRECTION_TOLERANCE := 20 }

/-- The module-level tracking variables shared by the detectors. -/
structure TrackState where
  lastAccelMagnitude : ℝ
  stepCount : ℕ
  rotationProgress : ℝ
  tiltStates : List String
  directionMatched : Bool
  lastDirectionMatchTime : ℝ
  directionMatchDuration : ℝ

/-- The state produced by resetChallengeTracking. -/
def resetChallengeTracking : TrackState :=
  { lastAccelMagnitude := 0
    stepCount := 0
    rotationProgress := 0
    tiltStates := []
    directionMatched := false
    lastDirectionMatchTime := 0
    directionMatchDuration := 0 }

/-- The result of one verification tick. -/
structure VerifyResult where
  completed : Bool
  performance : ℝ

/-- Euclidean magnitude of an accelerometer vector. -/
noncomputable def accelMagnitude (a : Vec3) : ℝ :=
  Real.sqrt (a.x ^ 2 + a.y ^ 2 + a.z ^ 2)

/-- The sensitivity-adjusted threshold table computed at the top of
verifyChallengeCompletion: magnitude, speed and angle thresholds divide
by the multiplier, the direction tolerance multiplies by it. -/
noncomputable def adjustThresholds (sensitivityMultiplier : ℝ) : Thresholds :=
  { STEP_MAGNITUDE := THRESHOLDS.STEP_MAGNITUDE / sensitivityMultiplier
    ROTATION_SPEED := THRESHOLDS.ROTATION_SPEED / sensitivityMultiplier
    TILT_ANGLE := THRESHOLDS.TILT_ANGLE / sensitivityMultiplier
    DIRECTION_TOLERANCE := THRESHOLDS.DIRECTION_TOLERANCE * sensitivityMultiplier }

/-- The RUN detector verifyRunChallenge.  Returns the tick result
together with the updated tracking state. -/
noncomputable def verifyRunChallenge (challenge : Challenge) (accelerometer : Vec3)
    (thresholds : Thresholds) (s : TrackState) : VerifyResult × TrackState :=
  let magnitude := accelMagnitude accelerometer
  let isStep : Prop :=
    magnitude > thresholds.STEP_MAGNITUDE ∧
    s.lastAccelMagnitude ≤ thresholds.STEP_MAGNITUDE
  let s1 := { s with lastAccelMagnitude := magnitude }
  let s2 := if isStep then { s1 with stepCount := s1.stepCount + 1 } else s1
  if numTruthy challenge.count ∧ (s2.stepCount : ℝ) ≥ numVal challenge.count then
    (⟨true, min 1.0 ((s2.stepCount : ℝ) / numVal challenge.count)⟩,
      { s2 with stepCount := 0 })
  else
    (⟨false,
      if numTruthy challenge.count then (s2.stepCount : ℝ) / numVal challenge.count
      else 0⟩, s2)

/-- The rotation axis value selected by verifyRotateChallenge from the
challenge direction: +z for 1, -z for -1, otherwise the absolute z. -/
noncomputable def rotationAxisOf (challenge : Challenge) (gyroscope : Vec3) : ℝ :=
  if challenge.direction = some (JSVal.num 1) then gyroscope.z
  else if challenge.direction = some (JSVal.num (-1)) then -gyroscope.z
  else |gyroscope.z|

/-- The ROTATE detector verifyRotateChallenge. -/
noncomputable def verifyRotateChallenge (challenge : Challenge) (gyroscope : Vec3)
    (thresholds : Thresholds) (s : TrackState) : VerifyResult × TrackState :=
  let rotationAxis := rotationAxisOf challenge gyroscope
  let s1 :=
    if |rotationAxis| > thresholds.ROTATION_SPEED then
      { s with rotationProgress :=
          s.rotationProgress + |rotationAxis| * (180 / Real.pi) / 10 }
    else s
  if numTruthy challenge.degrees ∧ s1.rotationProgress ≥ numVal challenge.degrees then
    (⟨true, min 1.0 (numVal challenge.degrees / s1.rotationProgress)⟩,
      { s1 with rotationProgress := 0 })
  else
    (⟨false,
      if numTruthy challenge.degrees then s1.rotationProgress / numVal challenge.degrees
      else 0⟩, s1)

/-- Tilt classification of a gyroscope sample, in the priority order of
the source: forward, backward, right, left, otherwise the empty string
(no tilt). -/
noncomputable def tiltClassify (gyroscope : Vec3) (thresholds : Thresholds) : String :=
  if gyroscope.x > thresholds.TILT_ANGLE then "forward"
  else if gyroscope.x < -thresholds.TILT_ANGLE then "backward"
  else if gyroscope.y > thresholds.TILT_ANGLE then "right"
  else if gyroscope.y < -thresholds.TILT_ANGLE then "left"
  else ""

/-- Recording of a classified tilt into the transition buffer: pushed
only when non-empty and different from the most recently recorded
transition. -/
noncomputable def tiltRecord (gyroscope : Vec3) (thresholds : Thresholds)
    (tiltStates : List String) : List String :=
  let tiltDetected := tiltClassify gyroscope thresholds
  if tiltDetected ≠ "" ∧
      (tiltStates = [] ∨ tiltStates.getLast? ≠ some tiltDetected) then
    tiltStates ++ [tiltDetected]
  else tiltStates

/-- The loop of verifyTiltChallenge that advances an index over the
required directions whenever the next required direction appears in the
recorded transition list. -/
def tiltMatchIndex (dirs : List String) : List String → ℕ → ℕ
  | [], idx => idx
  | t :: rest, idx =>
    if dirs[idx]? = some t then tiltMatchIndex dirs rest (idx + 1)
    else tiltMatchIndex dirs rest idx

/-- The tail of verifyTiltChallenge: the ordered-sequence completion
check followed by the partial-progress computation. -/
noncomputable def tiltSeqCheck (challenge : Challenge) (s : TrackState) :
    VerifyResult × TrackState :=
  match challenge.directions with
  | some dirs =>
    if tiltMatchIndex dirs s.tiltStates 0 = dirs.length then
      (⟨true, 1.0⟩, { s with tiltStates := [] })
    else
      (⟨false, min ((s.tiltStates.length : ℝ) / (dirs.length : ℝ)) 1.0⟩, s)
  | none =>
    (⟨false,
      if numTruthy challenge.duration then
        s.directionMatchDuration / numVal challenge.duration
      else 0⟩, s)

/-- The TILT detector verifyTiltChallenge, with the wall-clock time of
the tick passed explicitly. -/
noncomputable def verifyTiltChallenge (challenge : Challenge) (gyroscope : Vec3)
    (thresholds : Thresholds) (s : TrackState) (now : ℝ) :
    VerifyResult × TrackState :=
  let tiltDetected := tiltClassify gyroscope thresholds
  let s1 := { s with tiltStates := tiltRecord gyroscope thresholds s.tiltStates }
  let dirHead := (challenge.directions.getD []).headD ""
  if numTruthy challenge.duration ∧ tiltDetected = dirHead then
    if s1.lastDirectionMatchTime = 0 then
      tiltSeqCheck challenge { s1 with lastDirectionMatchTime := now }
    else
      let dur := (now - s1.lastDirectionMatchTime) / 1000
      let s2 := { s1 with directionMatchDuration := dur }
      if dur ≥ numVal challenge.duration then
        (⟨true, 1.0⟩,
          { s2 with tiltStates := [], lastDirectionMatchTime := 0,
                    directionMatchDuration := 0 })
      else tiltSeqCheck challenge s2
  else
    tiltSeqCheck challenge { s1 with lastDirectionMatchTime := 0 }

/-- JavaScript atan2, expressed through the principal argument of the
complex number x + y i, which agrees with atan2 on real inputs. -/
noncomputable def atan2 (y x : ℝ) : ℝ := Complex.arg ⟨x, y⟩

/-- Compass heading of a magnetometer sample, in degrees. -/
noncomputable def headingOf (m : Vec3) : ℝ := atan2 m.y m.x * (180 / Real.pi)

/-- Heading normalized into the interval from 0 to 360 degrees. -/
noncomputable def normalizedHeading (m : Vec3) : ℝ :=
  let heading := headingOf m
  if heading < 0 then heading + 360 else heading

/-- The compass-label table getHeadingFromDirection, defaulting to 0. -/
noncomputable def getHeadingFromDirection : Option JSVal → ℝ
  | some (JSVal.str "N") => 0
  | some (JSVal.str "NE") => 45
  | some (JSVal.str "E") => 90
  | some (JSVal.str "SE") => 135
  | some (JSVal.str "S") => 180
  | some (JSVal.str "SW") => 225
  | some (JSVal.str "W") => 270
  | some (JSVal.str "NW") => 315
  | _ => 0

/-- Shorter-arc angular difference between the normalized heading of a
sample and the target heading of the challenge. -/
noncomputable def headingDiff (challenge : Challenge) (m : Vec3) : ℝ :=
  let diff := |normalizedHeading m - getHeadingFromDirection challenge.direction|
  if diff > 180 then 360 - diff else diff

/-- The DIRECTION detector verifyDirectionChallenge, with the wall-clock
time of the tick passed explicitly. -/
noncomputable def verifyDirectionChallenge (challenge : Challenge) (magnetometer : Vec3)
    (thresholds : Thresholds) (s : TrackState) (now : ℝ) :
    VerifyResult × TrackState :=
  let diff := headingDiff challenge magnetometer
  let tolerance :=
    if numTruthy challenge.tolerance then numVal challenge.tolerance
    else thresholds.DIRECTION_TOLERANCE
  if diff ≤ tolerance then
    if s.directionMatched = false then
      (⟨false, max 0 (1.0 - diff / 180)⟩,
        { s with directionMatched := true, lastDirectionMatchTime := now })
    else
      if (now - s.lastDirectionMatchTime) / 1000 ≥ 2 then
        (⟨true, 1.0 - diff / tolerance⟩,
          { s with directionMatched := false, lastDirectionMatchTime := 0 })
      else
        (⟨false, max 0 (1.0 - diff / 180)⟩, s)
  else
    (⟨false, max 0 (1.0 - diff / 180)⟩,
      { s with directionMatched := false, lastDirectionMatchTime := 0 })

/-- The dispatcher verifyChallengeCompletion: null tolerance, threshold
adjustment, dispatch on the challenge type string, and the fallback
shake check for unknown types. -/
noncomputable def verifyChallengeCompletion (challenge : Option Challenge)
    (sensorData : Option SensorData) (sensitivityMultiplier : ℝ)
    (s : TrackState) (now : ℝ) : VerifyResult × TrackState :=
  match challenge, sensorData with
  | none, _ => (⟨false, 0⟩, s)
  | some _, none => (⟨false, 0⟩, s)
  | some challenge, some sensorData =>
    let adjustedThresholds := adjustThresholds sensitivityMultiplier
    if challenge.type = "RUN" then
      verifyRunChallenge challenge sensorData.accelerometer adjustedThresholds s
    else if challenge.type = "ROTATE" then
      verifyRotateChallenge challenge sensorData.gyroscope adjustedThresholds s
    else if challenge.type = "TILT" then
      verifyTiltChallenge challenge sensorData.gyroscope adjustedThresholds s now
    else if challenge.type = "DIRECTION" then
      verifyDirectionChallenge challenge sensorData.magnetometer adjustedThresholds s now
    else
      if accelMagnitude sensorData.accelerometer > 2.5 then (⟨true, 0.7⟩, s)
      else (⟨false, 0⟩, s)

/-- The verification tick of the challenge screen, which calls
verifyChallengeCompletion with only the challenge and the sensor
snapshot, so the sensitivity parameter always takes its declared
default value 1.0. -/
noncomputable def challengeTick (challenge : Option Challenge)
    (sensorData : Option SensorData) (s : TrackState) (now : ℝ) :
    VerifyResult × TrackState :=
  verifyChallengeCompletion challenge sensorData 1.0 s now

/-- The sensitivity value persisted by the settings screen for each
difficulty label: easy 0.7, medium 1.0, hard 1.3, defaulting to 1.0. -/
noncomputable def changeDifficultySensitivity (difficulty : String) : ℝ :=
  if difficulty = "easy" then 0.7
  else if difficulty = "medium" then 1.0
  else if difficulty = "hard" then 1.3
  else 1.0

/-- Sensor availability as reported by getSensorStatus. -/
structure SensorStatus where
  accelerometer : Bool
  gyroscope : Bool
  magnetometer : Bool

/-- The RUN challenge templates of the catalog. -/
noncomputable def RUN_CHALLENGES : List Challenge :=
  [ { instruction := "Run in place for 3 seconds", count := some 3,
      intensity := some 1.5, hint := "Move up and down quickly" },
    { instruction := "Take 5 steps forward", count := some 5,
      intensity := some 1.2, hint := "Step forward with your device" },
    { instruction := "Jump 3 times", count := some 3,
      intensity := some 2.0, hint := "Quick vertical movements" },
    { instruction := "March in place for 5 seconds", count := some 5,
      intensity := some 1.3, hint := "Raise knees high" } ]

/-- The ROTATE challenge templates of the catalog. -/
noncomputable def ROTATE_CHALLENGES : List Challenge :=
  [ { instruction := "Rotate device 360 clockwise", degrees := some 360,
      direction := some (JSVal.num 1), hint := "Turn your device in a full circle" },
    { instruction := "Rotate device 360 counter-clockwise", degrees := some 360,
      direction := some (JSVal.num (-1)),
      hint := "Turn your device in a full circle in the opposite direction" },
    { instruction := "Rotate device 180 and back", degrees := some 180,
      direction := some (JSVal.num 0), hint := "Turn halfway around and return" },
    { instruction := "Spin around with your device", degrees := some 360,
      direction := some (JSVal.num 0), hint := "Turn your whole body" } ]

/-- The TILT challenge templates of the catalog. -/
noncomputable def TILT_CHALLENGES : List Challenge :=
  [ { instruction := "Tilt device left then right",
      directions := some ["left", "right"], hint := "Tilt from side to side" },
    { instruction := "Tilt device forward then backward",
      directions := some ["forward", "backward"], hint := "Tilt forward and backward" },
    { instruction := "Tilt device in a circle",
      directions := some ["left", "forward", "right", "backward"],
      hint := "Move in a circular pattern" },
    { instruction := "Hold device tilted left for 3 seconds",
      directions := some ["left"], duration := some 3, hint := "Keep it steady" } ]

/-- The DIRECTION challenge templates of the catalog. -/
noncomputable def DIRECTION_CHALLENGES : List Challenge :=
  [ { instruction := "Face North", direction := some (JSVal.str "N"),
      tolerance := some 20, hint := "Use the compass to find North" },
    { instruction := "Face East", direction := some (JSVal.str "E"),
      tolerance := some 20, hint := "Use the compass to find East" },
    { instruction := "Face South", direction := some (JSVal.str "S"),
      tolerance := some 20, hint := "Use the compass to find South" },
    { instruction := "Face West", direction := some (JSVal.str "W"),
      tolerance := some 20, hint := "Use the compass to find West" },
    { instruction := "Rotate slowly to face South-East",
      direction := some (JSVal.str "SE"), tolerance := some 20,
      hint := "Between South and East" } ]

/-- The catalog CHALLENGES, keyed by the challenge type string. -/
noncomputable def CHALLENGES (t : String) : List Challenge :=
  if t = "RUN" then RUN_CHALLENGES
  else if t = "ROTATE" then ROTATE_CHALLENGES
  else if t = "TILT" then TILT_CHALLENGES
  else if t = "DIRECTION" then DIRECTION_CHALLENGES
  else []

/-- The challenge generator generateChallenge, with the two uniform
random draws of the source passed explicitly as numbers in the
half-open unit interval. -/
noncomputable def generateChallenge (sensors : SensorStatus) (r1 r2 : ℝ) : Challenge :=
  let availableChallengeTypes :=
    (if sensors.accelerometer then ["RUN"] else []) ++
    (if sensors.gyroscope then ["ROTATE", "TILT"] else []) ++
    (if sensors.magnetometer then ["DIRECTION"] else [])
  if availableChallengeTypes = [] then
    { type := "BASIC", instruction := "Shake your device",
      hint := "No advanced sensors detected, just shake the device" }
  else
    let randomTypeIndex := (⌊r1 * availableChallengeTypes.length⌋).toNat
    let selectedType := availableChallengeTypes.getD randomTypeIndex ""
    let challengesForType := CHALLENGES selectedType
    let randomChallengeIndex := (⌊r2 * challengesForType.length⌋).toNat
    let selectedChallenge := challengesForType.getD randomChallengeIndex {}
    { selectedChallenge with type := selectedType }


/-- Repeated verification ticks of the RUN detector over a list of
accelerometer samples, threading the tracking state and discarding the
per-tick results. -/
noncomputable def runTicks (challenge : Challenge) (thresholds : Thresholds) :
    List Vec3 → TrackState → TrackState
  | [], s => s
  | a :: rest, s =>
    runTicks challenge thresholds rest (verifyRunChallenge challenge a thresholds s).2

/-- The Face North challenge as the generator returns it: the catalog
template with the DIRECTION type attached. -/
noncomputable def faceNorth : Challenge :=
  { type := "DIRECTION", direction := some (JSVal.str "N"), tolerance := some 20 }

/-! ## Helper lemmas -/

/-- The magnitude of a sample lying along the x axis is its (nonnegative)
x component. -/
theorem accelMagnitude_axis (x : ℝ) (hx : 0 ≤ x) : accelMagnitude ⟨x, 0, 0⟩ = x := by
  have h : accelMagnitude ⟨x, 0, 0⟩ = Real.sqrt (x ^ 2) := by
    unfold accelMagnitude; norm_num
  rw [h, Real.sqrt_sq hx]

/-! ## C7: threshold adjustment formulas -/

/-- C7: for every sensitivity multiplier m greater than 0, the adjusted
thresholds are the base step magnitude 1.2, rotation speed 0.5 and tilt
angle 0.5 each divided by m, and the base direction tolerance 20
multiplied by m. -/
theorem adjustThresholds_formula (m : ℝ) (hm : 0 < m) :
    adjustThresholds m =
      { STEP_MAGNITUDE := 1.2 / m, ROTATION_SPEED := 0.5 / m,
        TILT_ANGLE := 0.5 / m, DIRECTION_TOLERANCE := 20 * m } := rfl

/-- Witness for C7 at the concrete multiplier 2. -/
theorem adjustThresholds_formula_witness :
    (0 : ℝ) < 2 ∧ adjustThresholds 2 =
      { STEP_MAGNITUDE := 0.6, ROTATION_SPEED := 0.25,
        TILT_ANGLE := 0.25, DIRECTION_TOLERANCE := 40 } := by
  refine ⟨by norm_num, ?_⟩
  rw [adjustThresholds_formula 2 (by norm_num)]
  simp only [Thresholds.mk.injEq]
  norm_num

/-! ## C8: null tolerance of the dispatcher -/

/-- C8: with a missing challenge or a missing sensor sample the
dispatcher returns completed false with performance 0 and leaves the
tracking state unchanged, for every state, multiplier and tick time. -/
theorem verifyChallengeCompletion_null (challenge : Option Challenge)
    (sensorData : Option SensorData) (m now : ℝ) (s : TrackState)
    (h : challenge = none ∨ sensorData = none) :
    verifyChallengeCompletion challenge sensorData m s now = (⟨false, 0⟩, s) := by
  rcases h with h | h
  · subst h; rfl
  · subst h; cases challenge <;> rfl

/-- Witness for C8 at a concrete missing challenge. -/
theorem verifyChallengeCompletion_null_witness :
    verifyChallengeCompletion none none 1 resetChallengeTracking 0 =
      (⟨false, 0⟩, resetChallengeTracking) :=
  verifyChallengeCompletion_null none none 1 0 resetChallengeTracking (Or.inl rfl)

/-! ## C9: sensor gating of challenge generation -/

/-- C9: with only the accelerometer available every draw yields a RUN
challenge, and with no sensor family available the generator returns the
fixed BASIC shake-the-device fallback. -/
theorem generateChallenge_sensor_gating (r1 r2 : ℝ) (h0 : 0 ≤ r1) (h1 : r1 < 1) :
    (generateChallenge ⟨true, false, false⟩ r1 r2).type = "RUN" ∧
    (∀ q1 q2 : ℝ, generateChallenge ⟨false, false, false⟩ q1 q2 =
      { type := "BASIC", instruction := "Shake your device",
        hint := "No advanced sensors detected, just shake the device" }) := by
  constructor
  · unfold generateChallenge
    have hfloor : ⌊r1⌋ = 0 := Int.floor_eq_zero_iff.mpr ⟨h0, h1⟩
    simp [hfloor]
  · intro q1 q2
    unfold generateChallenge
    simp


/-! ## RUN detector evaluation helpers -/

/-- The RUN detector completes a tick exactly when the count field is a
truthy number and the post-update step counter has reached it. -/
theorem verifyRun_completed_iff (c : Challenge) (a : Vec3) (thr : Thresholds)
    (s : TrackState) :
    (verifyRunChallenge c a thr s).1.completed = true ↔
      (numTruthy c.count ∧
        ((if accelMagnitude a > thr.STEP_MAGNITUDE ∧
              s.lastAccelMagnitude ≤ thr.STEP_MAGNITUDE
          then s.stepCount + 1 else s.stepCount : ℕ) : ℝ) ≥ numVal c.count) := by
  simp only [verifyRunChallenge]
  split_ifs with h1 h2 h3 <;> simp_all

/-- On a non-completing tick the RUN detector stores the new magnitude
and applies the rising-edge counter update. -/
theorem verifyRun_state (c : Challenge) (a : Vec3) (thr : Thresholds) (s : TrackState)
    (h : (verifyRunChallenge c a thr s).1.completed = false) :
    (verifyRunChallenge c a thr s).2 =
      { s with lastAccelMagnitude := accelMagnitude a,
               stepCount :=
                 if accelMagnitude a > thr.STEP_MAGNITUDE ∧
                     s.lastAccelMagnitude ≤ thr.STEP_MAGNITUDE
                 then s.stepCount + 1 else s.stepCount } := by
  simp only [verifyRunChallenge] at h ⊢
  split_ifs at h ⊢ with h1 h2 h3 <;> simp_all


/-! ## C1: ROTATE accumulation -/

/-- C1 (amended): on a non-completing tick of the ROTATE detector the
accumulated rotation total gains exactly the absolute selected axis
value times (180 divided by pi) divided by 10 when that absolute value
exceeds the adjusted speed threshold, and is unchanged otherwise. -/
theorem verifyRotate_accumulation (c : Challenge) (g : Vec3) (thr : Thresholds)
    (s : TrackState)
    (h : (verifyRotateChallenge c g thr s).1.completed = false) :
    (verifyRotateChallenge c g thr s).2.rotationProgress =
      if |rotationAxisOf c g| > thr.ROTATION_SPEED then
        s.rotationProgress + |rotationAxisOf c g| * (180 / Real.pi) / 10
      else s.rotationProgress := by
  simp only [verifyRotateChallenge] at h ⊢
  split_ifs at h ⊢ with h1 h2 h3 <;> simp_all

/-- The ROTATE detector completes a tick exactly when the degrees field
is a truthy number and the post-accumulation total has reached it. -/
theorem verifyRotate_completed_iff (c : Challenge) (g : Vec3) (thr : Thresholds)
    (s : TrackState) :
    (verifyRotateChallenge c g thr s).1.completed = true ↔
      (numTruthy c.degrees ∧
        (if |rotationAxisOf c g| > thr.ROTATION_SPEED then
           s.rotationProgress + |rotationAxisOf c g| * (180 / Real.pi) / 10
         else s.rotationProgress) ≥ numVal c.degrees) := by
  simp only [verifyRotateChallenge]
  split_ifs with h1 h2 h3 <;> simp_all

/-- Witness for C1 (amended) at a contributing sample: direction 0 and a
z rate of 1 on base thresholds adds 180 over pi divided by 10 degrees. -/
theorem verifyRotate_accumulation_witness :
    (verifyRotateChallenge
        { type := "ROTATE", degrees := some 360, direction := some (JSVal.num 0) }
        ⟨0, 0, 1⟩ (adjustThresholds 1) resetChallengeTracking).2.rotationProgress =
      0 + 1 * (180 / Real.pi) / 10 := by
  have hax : rotationAxisOf
      { type := "ROTATE", degrees := some 360, direction := some (JSVal.num 0) }
      ⟨0, 0, 1⟩ = 1 := by
    unfold rotationAxisOf
    rw [if_neg (by simp), if_neg (by simp)]
    exact abs_one
  have hpi : (0 : ℝ) < Real.pi := Real.pi_pos
  have hspeed : |(1 : ℝ)| > (adjustThresholds 1).ROTATION_SPEED := by
    rw [abs_one]; norm_num [adjustThresholds, THRESHOLDS]
  have hlt : ¬(resetChallengeTracking.rotationProgress + |(1 : ℝ)| * (180 / Real.pi) / 10 ≥
      numVal (some 360)) := by
    simp only [resetChallengeTracking, numVal, abs_one, zero_add, one_mul, not_le]
    have h3 : (3 : ℝ) < Real.pi := Real.pi_gt_three
    have h60 : (180 : ℝ) / Real.pi < 60 := by
      rw [div_lt_iff₀ hpi]; nlinarith
    linarith
  have hdone : (verifyRotateChallenge
      { type := "ROTATE", degrees := some 360, direction := some (JSVal.num 0) }
      ⟨0, 0, 1⟩ (adjustThresholds 1) resetChallengeTracking).1.completed = false := by
    rw [Bool.eq_false_iff, Ne, verifyRotate_completed_iff, hax]
    rintro ⟨-, hge⟩
    rw [if_pos hspeed] at hge
    exact hlt hge
  rw [verifyRotate_accumulation _ _ _ _ hdone, hax, if_pos hspeed]
  simp [resetChallengeTracking, abs_one]

/-- C1 (counterexample): for the clockwise 360-degree template the
selected axis value of the sample with gyroscope z equal to -1 does not
exceed the adjusted speed threshold, yet the accumulated rotation total
changes on that tick. -/
theorem verifyRotate_signed_axis_counterexample :
    rotationAxisOf
        { type := "ROTATE", degrees := some 360, direction := some (JSVal.num 1) }
        ⟨0, 0, -1⟩ ≤ (adjustThresholds 1).ROTATION_SPEED ∧
    (verifyRotateChallenge
        { type := "ROTATE", degrees := some 360, direction := some (JSVal.num 1) }
        ⟨0, 0, -1⟩ (adjustThresholds 1) resetChallengeTracking).2.rotationProgress ≠
      resetChallengeTracking.rotationProgress := by
  have hax : rotationAxisOf
      { type := "ROTATE", degrees := some 360, direction := some (JSVal.num 1) }
      ⟨0, 0, -1⟩ = -1 := by
    unfold rotationAxisOf
    rw [if_pos rfl]
  have hpi : (0 : ℝ) < Real.pi := Real.pi_pos
  have habs : |(-1 : ℝ)| = 1 := by rw [abs_neg, abs_one]
  have hspeed : |(-1 : ℝ)| > (adjustThresholds 1).ROTATION_SPEED := by
    rw [habs]; norm_num [adjustThresholds, THRESHOLDS]
  have hlt : ¬(resetChallengeTracking.rotationProgress + |(-1 : ℝ)| * (180 / Real.pi) / 10 ≥
      numVal (some 360)) := by
    simp only [resetChallengeTracking, numVal, habs, zero_add, one_mul, not_le]
    have h3 : (3 : ℝ) < Real.pi := Real.pi_gt_three
    have h60 : (180 : ℝ) / Real.pi < 60 := by
      rw [div_lt_iff₀ hpi]; nlinarith
    linarith
  have hdone : (verifyRotateChallenge
      { type := "ROTATE", degrees := some 360, direction := some (JSVal.num 1) }
      ⟨0, 0, -1⟩ (adjustThresholds 1) resetChallengeTracking).1.completed = false := by
    rw [Bool.eq_false_iff, Ne, verifyRotate_completed_iff, hax]
    rintro ⟨-, hge⟩
    rw [if_pos hspeed] at hge
    exact hlt hge
  refine ⟨by rw [hax]; norm_num [adjustThresholds, THRESHOLDS], ?_⟩
  rw [verifyRotate_accumulation _ _ _ _ hdone, hax, if_pos hspeed]
  simp only [resetChallengeTracking, habs, zero_add, one_mul]
  positivity


/-- Processing samples whose magnitudes all exceed the step threshold
from a state already above the threshold never increments the counter
(count is absent so the completion reset cannot fire). -/
theorem runTicks_all_above (c : Challenge) (thr : Thresholds) (hc : c.count = none)
    (samples : List Vec3) :
    ∀ s : TrackState, s.lastAccelMagnitude > thr.STEP_MAGNITUDE →
      (∀ a ∈ samples, accelMagnitude a > thr.STEP_MAGNITUDE) →
      (runTicks c thr samples s).stepCount = s.stepCount := by
  induction samples with
  | nil => intro s _ _; rfl
  | cons a rest ih =>
    intro s hs hall
    have hcomp : (verifyRunChallenge c a thr s).1.completed = false := by
      rw [Bool.eq_false_iff, Ne, verifyRun_completed_iff]
      rintro ⟨ht, -⟩
      rw [hc] at ht
      exact ht
    have hno : ¬(accelMagnitude a > thr.STEP_MAGNITUDE ∧
        s.lastAccelMagnitude ≤ thr.STEP_MAGNITUDE) := by
      rintro ⟨-, h2⟩
      exact absurd h2 (not_le.mpr hs)
    simp only [runTicks]
    rw [verifyRun_state _ _ _ _ hcomp, if_neg hno]
    simpa using ih _ (by simpa using hall a (List.mem_cons_self a rest))
      (fun b hb => hall b (List.mem_cons_of_mem a hb))

/-! ## C2: RUN rising-edge step counting -/

/-- C2: a step is counted exactly on a rising-edge crossing; the
magnitudes 0, 1.5, 0.8, 1.6, 0.9 from the reset state at threshold 1.2
produce counter values 0, 1, 1, 2, 2, so exactly 2 steps at the 2nd and
4th samples; and a nonempty run of samples above the threshold entered
from at-or-below the threshold increments the counter exactly once. -/
theorem verifyRun_rising_edge :
    (∀ (c : Challenge) (a : Vec3) (thr : Thresholds) (s : TrackState),
        (verifyRunChallenge c a thr s).1.completed = false →
        (verifyRunChallenge c a thr s).2.stepCount =
          (if accelMagnitude a > thr.STEP_MAGNITUDE ∧
               s.lastAccelMagnitude ≤ thr.STEP_MAGNITUDE
           then s.stepCount + 1 else s.stepCount)) ∧
    ((runTicks { type := "RUN", count := some 5 } (adjustThresholds 1)
        [⟨0, 0, 0⟩] resetChallengeTracking).stepCount = 0 ∧
     (runTicks { type := "RUN", count := some 5 } (adjustThresholds 1)
        [⟨0, 0, 0⟩, ⟨1.5, 0, 0⟩] resetChallengeTracking).stepCount = 1 ∧
     (runTicks { type := "RUN", count := some 5 } (adjustThresholds 1)
        [⟨0, 0, 0⟩, ⟨1.5, 0, 0⟩, ⟨0.8, 0, 0⟩] resetChallengeTracking).stepCount = 1 ∧
     (runTicks { type := "RUN", count := some 5 } (adjustThresholds 1)
        [⟨0, 0, 0⟩, ⟨1.5, 0, 0⟩, ⟨0.8, 0, 0⟩, ⟨1.6, 0, 0⟩]
        resetChallengeTracking).stepCount = 2 ∧
     (runTicks { type := "RUN", count := some 5 } (adjustThresholds 1)
        [⟨0, 0, 0⟩, ⟨1.5, 0, 0⟩, ⟨0.8, 0, 0⟩, ⟨1.6, 0, 0⟩, ⟨0.9, 0, 0⟩]
        resetChallengeTracking).stepCount = 2) ∧
    (∀ (c : Challenge) (thr : Thresholds) (s : TrackState) (samples : List Vec3),
        c.count = none → s.lastAccelMagnitude ≤ thr.STEP_MAGNITUDE →
        samples ≠ [] →
        (∀ a ∈ samples, accelMagnitude a > thr.STEP_MAGNITUDE) →
        (runTicks c thr samples s).stepCount = s.stepCount + 1) := by
  refine ⟨?edge, ?concrete, ?once⟩
  case edge =>
    intro c a thr s h
    rw [verifyRun_state _ _ _ _ h]
  case concrete =>
    have e0 : accelMagnitude ⟨0, 0, 0⟩ = 0 := accelMagnitude_axis 0 le_rfl
    have e1 : accelMagnitude ⟨1.5, 0, 0⟩ = 1.5 := accelMagnitude_axis _ (by norm_num)
    have e2 : accelMagnitude ⟨0.8, 0, 0⟩ = 0.8 := accelMagnitude_axis _ (by norm_num)
    have e3 : accelMagnitude ⟨1.6, 0, 0⟩ = 1.6 := accelMagnitude_axis _ (by norm_num)
    have e4 : accelMagnitude ⟨0.9, 0, 0⟩ = 0.9 := accelMagnitude_axis _ (by norm_num)
    have t0 : (verifyRunChallenge { type := "RUN", count := some 5 } ⟨0, 0, 0⟩
        (adjustThresholds 1) resetChallengeTracking).1.completed = false := by
      rw [Bool.eq_false_iff, Ne, verifyRun_completed_iff]
      simp only [e0]
      norm_num [numTruthy, numVal, adjustThresholds, THRESHOLDS, resetChallengeTracking]
    have st0 : (verifyRunChallenge { type := "RUN", count := some 5 } ⟨0, 0, 0⟩
        (adjustThresholds 1) resetChallengeTracking).2 =
        (⟨0, 0, 0, [], false, 0, 0⟩ : TrackState) := by
      rw [verifyRun_state _ _ _ _ t0]
      simp only [e0]
      norm_num [resetChallengeTracking, adjustThresholds, THRESHOLDS]
    have t1 : (verifyRunChallenge { type := "RUN", count := some 5 } ⟨1.5, 0, 0⟩
        (adjustThresholds 1) (⟨0, 0, 0, [], false, 0, 0⟩ : TrackState)).1.completed = false := by
      rw [Bool.eq_false_iff, Ne, verifyRun_completed_iff]
      simp only [e1]
      norm_num [numTruthy, numVal, adjustThresholds, THRESHOLDS]
    have st1 : (verifyRunChallenge { type := "RUN", count := some 5 } ⟨1.5, 0, 0⟩
        (adjustThresholds 1) (⟨0, 0, 0, [], false, 0, 0⟩ : TrackState)).2 =
        (⟨1.5, 1, 0, [], false, 0, 0⟩ : TrackState) := by
      rw [verifyRun_state _ _ _ _ t1]
      simp only [e1]
      norm_num [adjustThresholds, THRESHOLDS]
    have t2 : (verifyRunChallenge { type := "RUN", count := some 5 } ⟨0.8, 0, 0⟩
        (adjustThresholds 1) (⟨1.5, 1, 0, [], false, 0, 0⟩ : TrackState)).1.completed = false := by
      rw [Bool.eq_false_iff, Ne, verifyRun_completed_iff]
      simp only [e2]
      norm_num [numTruthy, numVal, adjustThresholds, THRESHOLDS]
    have st2 : (verifyRunChallenge { type := "RUN", count := some 5 } ⟨0.8, 0, 0⟩
        (adjustThresholds 1) (⟨1.5, 1, 0, [], false, 0, 0⟩ : TrackState)).2 =
        (⟨0.8, 1, 0, [], false, 0, 0⟩ : TrackState) := by
      rw [verifyRun_state _ _ _ _ t2]
      simp only [e2]
      norm_num [adjustThresholds, THRESHOLDS]
    have t3 : (verifyRunChallenge { type := "RUN", count := some 5 } ⟨1.6, 0, 0⟩
        (adjustThresholds 1) (⟨0.8, 1, 0, [], false, 0, 0⟩ : TrackState)).1.completed = false := by
      rw [Bool.eq_false_iff, Ne, verifyRun_completed_iff]
      simp only [e3]
      norm_num [numTruthy, numVal, adjustThresholds, THRESHOLDS]
    have st3 : (verifyRunChallenge { type := "RUN", count := some 5 } ⟨1.6, 0, 0⟩
        (adjustThresholds 1) (⟨0.8, 1, 0, [], false, 0, 0⟩ : TrackState)).2 =
        (⟨1.6, 2, 0, [], false, 0, 0⟩ : TrackState) := by
      rw [verifyRun_state _ _ _ _ t3]
      simp only [e3]
      norm_num [adjustThresholds, THRESHOLDS]
    have t4 : (verifyRunChallenge { type := "RUN", count := some 5 } ⟨0.9, 0, 0⟩
        (adjustThresholds 1) (⟨1.6, 2, 0, [], false, 0, 0⟩ : TrackState)).1.completed = false := by
      rw [Bool.eq_false_iff, Ne, verifyRun_completed_iff]
      simp only [e4]
      norm_num [numTruthy, numVal, adjustThresholds, THRESHOLDS]
    have st4 : (verifyRunChallenge { type := "RUN", count := some 5 } ⟨0.9, 0, 0⟩
        (adjustThresholds 1) (⟨1.6, 2, 0, [], false, 0, 0⟩ : TrackState)).2 =
        (⟨0.9, 2, 0, [], false, 0, 0⟩ : TrackState) := by
      rw [verifyRun_state _ _ _ _ t4]
      simp only [e4]
      norm_num [adjustThresholds, THRESHOLDS]
    refine ⟨?_, ?_, ?_, ?_, ?_⟩
    · simp only [runTicks]; rw [st0]
    · simp only [runTicks]; rw [st0, st1]
    · simp only [runTicks]; rw [st0, st1, st2]
    · simp only [runTicks]; rw [st0, st1, st2, st3]
    · simp only [runTicks]; rw [st0, st1, st2, st3, st4]
  case once =>
    intro c thr s samples hc hbelow hne hall
    match samples with
    | [] => exact absurd rfl hne
    | a :: rest =>
      have hstep : accelMagnitude a > thr.STEP_MAGNITUDE ∧
          s.lastAccelMagnitude ≤ thr.STEP_MAGNITUDE :=
        ⟨hall a (List.mem_cons_self a rest), hbelow⟩
      have hcomp : (verifyRunChallenge c a thr s).1.completed = false := by
        rw [Bool.eq_false_iff, Ne, verifyRun_completed_iff]
        rintro ⟨ht, -⟩
        rw [hc] at ht
        exact ht
      simp only [runTicks]
      rw [verifyRun_state _ _ _ _ hcomp, if_pos hstep]
      simpa using runTicks_all_above c thr hc rest _
        (by simpa using hall a (List.mem_cons_self a rest))
        (fun b hb => hall b (List.mem_cons_of_mem a hb))

/-- Witness for C2: a single sample of magnitude 2 entered from the
reset state increments the counter exactly once. -/
theorem verifyRun_rising_edge_witness :
    (runTicks { type := "RUN" } (adjustThresholds 1) [⟨2, 0, 0⟩]
      resetChallengeTracking).stepCount = resetChallengeTracking.stepCount + 1 := by
  refine verifyRun_rising_edge.2.2 _ _ _ _ rfl ?_ (by simp) ?_
  · norm_num [resetChallengeTracking, adjustThresholds, THRESHOLDS]
  · intro a ha
    rw [List.mem_singleton] at ha
    subst ha
    rw [accelMagnitude_axis 2 (by norm_num)]
    norm_num [adjustThresholds, THRESHOLDS]


/-! ## TILT detector: greedy subsequence matching -/

/-- The match index never moves past the end of the required list. -/
theorem tiltMatchIndex_le (dirs : List String) (ts : List String) :
    ∀ idx, idx ≤ dirs.length → tiltMatchIndex dirs ts idx ≤ dirs.length := by
  induction ts with
  | nil => intro idx h; exact h
  | cons t rest ih =>
    intro idx h
    simp only [tiltMatchIndex]
    split_ifs with hg
    · obtain ⟨hlt, -⟩ := List.getElem?_eq_some_iff.mp hg
      exact ih (idx + 1) hlt
    · exact ih idx h

/-- The greedy scan reaches the end of the required list exactly when
the unmatched suffix of the required list is a subsequence of the
scanned transitions. -/
theorem tiltMatchIndex_eq_iff (dirs : List String) (ts : List String) :
    ∀ idx, idx ≤ dirs.length →
      (tiltMatchIndex dirs ts idx = dirs.length ↔ dirs.drop idx <+ ts) := by
  induction ts with
  | nil =>
    intro idx h
    simp only [tiltMatchIndex, List.sublist_nil, List.drop_eq_nil_iff]
    omega
  | cons t rest ih =>
    intro idx h
    simp only [tiltMatchIndex]
    split_ifs with hg
    · obtain ⟨hlt, hget⟩ := List.getElem?_eq_some_iff.mp hg
      rw [ih (idx + 1) hlt]
      rw [List.drop_eq_getElem_cons hlt, hget]
      exact List.cons_sublist_cons.symm
    · rw [ih idx h]
      constructor
      · exact fun hs => hs.cons t
      · intro hs
        rcases List.sublist_cons_iff.mp hs with hs | ⟨r, hr, -⟩
        · exact hs
        · exfalso
          have hlt : idx < dirs.length := by
            by_contra hge
            rw [List.drop_eq_nil_iff.mpr (by omega)] at hr
            exact List.noConfusion hr
          rw [List.drop_eq_getElem_cons hlt] at hr
          exact hg (List.getElem?_eq_some_iff.mpr ⟨hlt, (List.cons.injEq _ _ _ _ ▸ hr).1⟩)

/-- With no duration field the hold branch of the TILT detector is
skipped: the tick records the classified tilt, clears the hold start
time and runs the sequence check. -/
theorem verifyTilt_duration_none (c : Challenge) (hd : c.duration = none)
    (g : Vec3) (thr : Thresholds) (s : TrackState) (now : ℝ) :
    verifyTiltChallenge c g thr s now =
      tiltSeqCheck c
        { s with tiltStates := tiltRecord g thr s.tiltStates,
                 lastDirectionMatchTime := 0 } := by
  have hneg : ¬(numTruthy c.duration ∧
      tiltClassify g thr = (c.directions.getD []).headD "") := by
    rintro ⟨ht, -⟩
    rw [hd] at ht
    exact ht
  simp only [verifyTiltChallenge]
  rw [if_neg hneg]

/-- The sequence check only reports completion with performance exactly
1. -/
theorem tiltSeqCheck_perf (c : Challenge) (s : TrackState)
    (h : (tiltSeqCheck c s).1.completed = true) :
    (tiltSeqCheck c s).1.performance = 1 := by
  rcases hc : c.directions with - | dirs
  · unfold tiltSeqCheck at h
    rw [hc] at h
    simp at h
  · unfold tiltSeqCheck at h ⊢
    simp only [hc] at h ⊢
    split_ifs at h ⊢ with hsplit
    norm_num

/-! ## C6: TILT sequence completion is subsequence matching -/

/-- C6: with no hold duration, a TILT tick completes exactly when the
required directions form a subsequence, gaps allowed, of the transition
list obtained after recording the current sample. -/
theorem verifyTilt_subsequence_completion (c : Challenge) (dirs : List String)
    (g : Vec3) (thr : Thresholds) (s : TrackState) (now : ℝ)
    (hdirs : c.directions = some dirs) (hdur : c.duration = none) :
    ((verifyTiltChallenge c g thr s now).1.completed = true ↔
      dirs <+ tiltRecord g thr s.tiltStates) := by
  rw [verifyTilt_duration_none c hdur]
  have key := tiltMatchIndex_eq_iff dirs (tiltRecord g thr s.tiltStates) 0 (Nat.zero_le _)
  rw [List.drop_zero] at key
  unfold tiltSeqCheck
  simp only [hdirs]
  split_ifs with h
  · simpa using key.mp h
  · simpa using fun hs => h (key.mpr hs)

/-- Witness for C6: the required sequence left, forward, right completes
on the transition list left, backward, forward, left once a new right
tilt is recorded, despite the gaps. -/
theorem verifyTilt_subsequence_completion_witness :
    (verifyTiltChallenge { type := "TILT", directions := some ["left", "forward", "right"] }
      ⟨0, 1, 0⟩ (adjustThresholds 1)
      { resetChallengeTracking with tiltStates := ["left", "backward", "forward", "left"] }
      0).1.completed = true := by
  have hcl : tiltClassify ⟨0, 1, 0⟩ (adjustThresholds 1) = "right" := by
    unfold tiltClassify
    norm_num [adjustThresholds, THRESHOLDS]
  have hrec : tiltRecord ⟨0, 1, 0⟩ (adjustThresholds 1)
      ["left", "backward", "forward", "left"] =
      ["left", "backward", "forward", "left", "right"] := by
    unfold tiltRecord
    rw [hcl, if_pos ⟨by simp, Or.inr (by simp)⟩]
    rfl
  rw [verifyTilt_subsequence_completion _ ["left", "forward", "right"] _ _ _ _ rfl rfl]
  show _ <+ tiltRecord _ _ ["left", "backward", "forward", "left"]
  rw [hrec]
  exact .cons₂ _ (.cons _ (.cons₂ _ (.cons _ (.cons₂ _ .slnil))))


/-! ## C3: TILT sequence-mode running progress -/

/-- A zero gyroscope sample classifies as no tilt on base thresholds. -/
theorem tiltClassify_zero : tiltClassify ⟨0, 0, 0⟩ (adjustThresholds 1) = "" := by
  unfold tiltClassify
  norm_num [adjustThresholds, THRESHOLDS]

/-- A zero gyroscope sample records no transition over the buffer
holding forward then backward. -/
theorem tiltRecord_zero_fb :
    tiltRecord ⟨0, 0, 0⟩ (adjustThresholds 1) ["forward", "backward"] =
      ["forward", "backward"] := by
  unfold tiltRecord
  rw [tiltClassify_zero]
  simp

/-- The left-right sequence challenge does not complete on a neutral
tick over the buffer holding forward then backward. -/
theorem tiltNotDone_fb :
    (verifyTiltChallenge { type := "TILT", directions := some ["left", "right"] }
      ⟨0, 0, 0⟩ (adjustThresholds 1)
      { resetChallengeTracking with tiltStates := ["forward", "backward"] }
      0).1.completed = false := by
  rw [verifyTilt_duration_none _ rfl]
  unfold tiltSeqCheck
  simp only [tiltRecord_zero_fb]
  rw [if_neg (by decide)]

/-- C3 (counterexample): with required directions left, right and
recorded transitions forward, backward, a neutral tick returns progress
1 although the longest matched required prefix is empty, so progress is
not matched-count over required-count. -/
theorem verifyTilt_progress_counterexample :
    (verifyTiltChallenge { type := "TILT", directions := some ["left", "right"] }
        ⟨0, 0, 0⟩ (adjustThresholds 1)
        { resetChallengeTracking with tiltStates := ["forward", "backward"] }
        0).1.completed = false ∧
    (verifyTiltChallenge { type := "TILT", directions := some ["left", "right"] }
        ⟨0, 0, 0⟩ (adjustThresholds 1)
        { resetChallengeTracking with tiltStates := ["forward", "backward"] }
        0).1.performance = 1 ∧
    tiltMatchIndex ["left", "right"] ["forward", "backward"] 0 = 0 ∧
    ((0 : ℝ) / ((["left", "right"] : List String).length : ℝ) ≠ 1) := by
  refine ⟨tiltNotDone_fb, ?_, by decide, by norm_num⟩
  rw [verifyTilt_duration_none _ rfl]
  unfold tiltSeqCheck
  simp only [tiltRecord_zero_fb]
  rw [if_neg (by decide)]
  norm_num

/-- C3 (amended): in sequence mode with no hold duration, the running
progress of a non-completing tick equals the recorded-transition count
after this tick divided by the required count, capped at 1. -/
theorem verifyTilt_progress_recorded_ratio (c : Challenge) (dirs : List String)
    (g : Vec3) (thr : Thresholds) (s : TrackState) (now : ℝ)
    (hdirs : c.directions = some dirs) (hdur : c.duration = none)
    (hnc : (verifyTiltChallenge c g thr s now).1.completed = false) :
    (verifyTiltChallenge c g thr s now).1.performance =
      min (((tiltRecord g thr s.tiltStates).length : ℝ) / (dirs.length : ℝ)) 1.0 := by
  rw [verifyTilt_duration_none c hdur] at hnc ⊢
  unfold tiltSeqCheck at hnc ⊢
  simp only [hdirs] at hnc ⊢
  split_ifs at hnc ⊢ with h
  simp

/-- Witness for C3 (amended) at the counterexample input: the returned
progress is the recorded count 2 over the required count 2, capped at
1. -/
theorem verifyTilt_progress_recorded_ratio_witness :
    (verifyTiltChallenge { type := "TILT", directions := some ["left", "right"] }
        ⟨0, 0, 0⟩ (adjustThresholds 1)
        { resetChallengeTracking with tiltStates := ["forward", "backward"] }
        0).1.performance =
      min (((tiltRecord ⟨0, 0, 0⟩ (adjustThresholds 1)
            (TrackState.tiltStates
              { resetChallengeTracking with
                  tiltStates := ["forward", "backward"] })).length : ℝ) /
          ((["left", "right"] : List String).length : ℝ)) 1.0 :=
  verifyTilt_progress_recorded_ratio _ ["left", "right"] _ _ _ _ rfl rfl tiltNotDone_fb


/-! ## C10: RUN and TILT complete only with full performance -/

/-- On a completing tick the RUN detector returns the capped ratio of
the post-update counter to the goal count. -/
theorem verifyRun_completed_perf (c : Challenge) (a : Vec3) (thr : Thresholds)
    (s : TrackState) (h : (verifyRunChallenge c a thr s).1.completed = true) :
    (verifyRunChallenge c a thr s).1.performance =
      min 1.0 (((if accelMagnitude a > thr.STEP_MAGNITUDE ∧
              s.lastAccelMagnitude ≤ thr.STEP_MAGNITUDE
            then s.stepCount + 1 else s.stepCount : ℕ) : ℝ) / numVal c.count) := by
  simp only [verifyRunChallenge] at h ⊢
  split_ifs at h ⊢ with h1 h2 h3 <;> simp_all

/-- C10: whenever the RUN detector (for a positive goal count, as in
every catalog template) or the TILT detector reports completion, the
returned performance is exactly 1. -/
theorem run_tilt_completion_full_performance :
    (∀ (c : Challenge) (a : Vec3) (thr : Thresholds) (s : TrackState),
        (∀ v : ℝ, c.count = some v → 0 < v) →
        (verifyRunChallenge c a thr s).1.completed = true →
        (verifyRunChallenge c a thr s).1.performance = 1) ∧
    (∀ (c : Challenge) (g : Vec3) (thr : Thresholds) (s : TrackState) (now : ℝ),
        (verifyTiltChallenge c g thr s now).1.completed = true →
        (verifyTiltChallenge c g thr s now).1.performance = 1) := by
  constructor
  · intro c a thr s hpos hdone
    rcases hc : c.count with - | v
    · rw [verifyRun_completed_iff] at hdone
      rw [hc] at hdone
      exact absurd hdone.1 (by simp [numTruthy])
    · have hv : 0 < v := hpos v hc
      have hge := (verifyRun_completed_iff c a thr s).mp hdone
      rw [hc] at hge
      simp only [numVal] at hge
      have hk : (1 : ℝ) ≤ ((if accelMagnitude a > thr.STEP_MAGNITUDE ∧
            s.lastAccelMagnitude ≤ thr.STEP_MAGNITUDE
          then s.stepCount + 1 else s.stepCount : ℕ) : ℝ) / v :=
        (one_le_div hv).mpr hge.2
      rw [verifyRun_completed_perf _ _ _ _ hdone, hc]
      simp only [numVal]
      rw [show (1.0 : ℝ) = 1 from by norm_num, min_eq_left hk]
  · intro c g thr s now hdone
    simp only [verifyTiltChallenge] at hdone ⊢
    split_ifs at hdone ⊢ with h1 h2 h3
    · exact tiltSeqCheck_perf _ _ hdone
    · norm_num
    · exact tiltSeqCheck_perf _ _ hdone
    · exact tiltSeqCheck_perf _ _ hdone

/-- Witness for C10: a completing RUN tick with goal count 3 and a
completing TILT sequence tick both return performance 1. -/
theorem run_tilt_completion_full_performance_witness :
    (verifyRunChallenge { type := "RUN", count := some 3 } ⟨1.5, 0, 0⟩
        (adjustThresholds 1) (⟨0, 2, 0, [], false, 0, 0⟩ : TrackState)).1.performance = 1 ∧
    (verifyTiltChallenge { type := "TILT", directions := some ["left"] } ⟨0, 0, 0⟩
        (adjustThresholds 1) { resetChallengeTracking with tiltStates := ["left"] }
        0).1.performance = 1 := by
  have e15 : accelMagnitude ⟨1.5, 0, 0⟩ = 1.5 := accelMagnitude_axis _ (by norm_num)
  constructor
  · refine run_tilt_completion_full_performance.1 _ _ _ _ ?_ ?_
    · intro v hv
      rw [Option.some.injEq] at hv
      rw [← hv]
      norm_num
    · rw [verifyRun_completed_iff]
      simp only [e15]
      norm_num [numTruthy, numVal, adjustThresholds, THRESHOLDS]
  · refine run_tilt_completion_full_performance.2 _ _ _ _ _ ?_
    have hrec : tiltRecord ⟨0, 0, 0⟩ (adjustThresholds 1) ["left"] = ["left"] := by
      unfold tiltRecord
      rw [tiltClassify_zero]
      simp
    rw [verifyTilt_duration_none _ rfl]
    unfold tiltSeqCheck
    simp only [hrec]
    rw [if_pos (by decide)]


/-! ## C4: the verification tick ignores the persisted difficulty -/

/-- C4 (code evaluation): the challenge screen tick always passes the
default multiplier 1.0 to the dispatcher, whatever difficulty is
persisted.  Concretely, an easy-difficulty sensitivity of 0.7 would
raise the step threshold to 1.2 / 0.7 and reject a magnitude-1.5 sample,
yet the tick counts a step for it because it uses 1.0. -/
theorem challengeTick_ignores_difficulty :
    changeDifficultySensitivity "easy" = 0.7 ∧
    (∀ (c : Option Challenge) (d : Option SensorData) (s : TrackState) (now : ℝ),
        challengeTick c d s now = verifyChallengeCompletion c d 1.0 s now) ∧
    (challengeTick (some { type := "RUN", count := some 5 })
        (some ⟨⟨1.5, 0, 0⟩, ⟨0, 0, 0⟩, ⟨0, 0, 0⟩⟩)
        resetChallengeTracking 0).2.stepCount = 1 ∧
    (verifyChallengeCompletion (some { type := "RUN", count := some 5 })
        (some ⟨⟨1.5, 0, 0⟩, ⟨0, 0, 0⟩, ⟨0, 0, 0⟩⟩) (changeDifficultySensitivity "easy")
        resetChallengeTracking 0).2.stepCount = 0 := by
  have h07 : changeDifficultySensitivity "easy" = 0.7 := by
    unfold changeDifficultySensitivity
    rw [if_pos rfl]
  have e15 : accelMagnitude ⟨1.5, 0, 0⟩ = 1.5 := accelMagnitude_axis _ (by norm_num)
  refine ⟨h07, fun c d s now => rfl, ?_, ?_⟩
  · have hred : challengeTick (some { type := "RUN", count := some 5 })
        (some ⟨⟨1.5, 0, 0⟩, ⟨0, 0, 0⟩, ⟨0, 0, 0⟩⟩) resetChallengeTracking 0 =
        verifyRunChallenge { type := "RUN", count := some 5 } ⟨1.5, 0, 0⟩
          (adjustThresholds 1.0) resetChallengeTracking := rfl
    rw [hred]
    have t : (verifyRunChallenge { type := "RUN", count := some 5 } ⟨1.5, 0, 0⟩
        (adjustThresholds 1.0) resetChallengeTracking).1.completed = false := by
      rw [Bool.eq_false_iff, Ne, verifyRun_completed_iff]
      simp only [e15]
      norm_num [numTruthy, numVal, adjustThresholds, THRESHOLDS, resetChallengeTracking]
    rw [verifyRun_state _ _ _ _ t]
    simp only [e15]
    norm_num [resetChallengeTracking, adjustThresholds, THRESHOLDS]
  · have hred : verifyChallengeCompletion (some { type := "RUN", count := some 5 })
        (some ⟨⟨1.5, 0, 0⟩, ⟨0, 0, 0⟩, ⟨0, 0, 0⟩⟩) (changeDifficultySensitivity "easy")
        resetChallengeTracking 0 =
        verifyRunChallenge { type := "RUN", count := some 5 } ⟨1.5, 0, 0⟩
          (adjustThresholds (changeDifficultySensitivity "easy"))
          resetChallengeTracking := rfl
    rw [hred, h07]
    have t : (verifyRunChallenge { type := "RUN", count := some 5 } ⟨1.5, 0, 0⟩
        (adjustThresholds 0.7) resetChallengeTracking).1.completed = false := by
      rw [Bool.eq_false_iff, Ne, verifyRun_completed_iff]
      simp only [e15]
      norm_num [numTruthy, numVal, adjustThresholds, THRESHOLDS, resetChallengeTracking]
    rw [verifyRun_state _ _ _ _ t]
    simp only [e15]
    norm_num [resetChallengeTracking, adjustThresholds, THRESHOLDS]


/-! ## C5: DIRECTION hold requirement -/

/-- The normalized heading of a unit sample at angle t in the closed
interval from 0 to pi is t converted to degrees. -/
theorem normalizedHeading_cos_sin (t : ℝ) (h0 : 0 ≤ t) (hpi : t ≤ Real.pi) :
    normalizedHeading ⟨Real.cos t, Real.sin t, 0⟩ = t * (180 / Real.pi) := by
  have harg : Complex.arg ⟨Real.cos t, Real.sin t⟩ = t := by
    rw [Complex.mk_eq_add_mul_I, Complex.ofReal_cos, Complex.ofReal_sin]
    exact Complex.arg_cos_add_sin_mul_I ⟨lt_of_lt_of_le (neg_neg_of_pos Real.pi_pos) h0, hpi⟩
  have hhead : headingOf ⟨Real.cos t, Real.sin t, 0⟩ = t * (180 / Real.pi) := by
    unfold headingOf atan2
    rw [harg]
  unfold normalizedHeading
  rw [hhead, if_neg (not_lt.mpr (by positivity))]

/-- A magnetometer sample with normalized heading exactly 10 degrees. -/
theorem normalizedHeading_ten :
    normalizedHeading ⟨Real.cos (Real.pi / 18), Real.sin (Real.pi / 18), 0⟩ = 10 := by
  rw [normalizedHeading_cos_sin (Real.pi / 18) (by positivity)
    (by linarith [Real.pi_pos])]
  field_simp
  ring

/-- A magnetometer sample with normalized heading exactly 90 degrees. -/
theorem normalizedHeading_ninety : normalizedHeading ⟨0, 1, 0⟩ = 90 := by
  have harg : Complex.arg ⟨0, 1⟩ = Real.pi / 2 := Complex.arg_I
  have hhead : headingOf ⟨0, 1, 0⟩ = Real.pi / 2 * (180 / Real.pi) := by
    unfold headingOf atan2
    rw [harg]
  unfold normalizedHeading
  rw [hhead, if_neg (not_lt.mpr (by positivity))]
  field_simp
  ring

/-- The target heading of the Face North challenge is 0 degrees. -/
theorem getHeadingFromDirection_north : getHeadingFromDirection faceNorth.direction = 0 := rfl

/-- Shorter-arc difference of a heading-10 sample against target N. -/
theorem headingDiff_ten (m : Vec3) (h10 : normalizedHeading m = 10) :
    headingDiff faceNorth m = 10 := by
  unfold headingDiff
  rw [h10, getHeadingFromDirection_north]
  norm_num

/-- Shorter-arc difference of a heading-90 sample against target N. -/
theorem headingDiff_ninety (m : Vec3) (h90 : normalizedHeading m = 90) :
    headingDiff faceNorth m = 90 := by
  unfold headingDiff
  rw [h90, getHeadingFromDirection_north]
  norm_num

/-- The effective tolerance of the Face North challenge is its template
tolerance 20, which overrides the adjusted default. -/
theorem faceNorth_tolerance :
    (if numTruthy faceNorth.tolerance then numVal faceNorth.tolerance
     else (adjustThresholds 1).DIRECTION_TOLERANCE) = 20 := by
  rw [if_pos (by norm_num [faceNorth, numTruthy])]
  norm_num [faceNorth, numVal]

/-- C5: against target N with tolerance 20, a heading-10 sample is
matched: a first-match tick arms the hold timer at the current time
without completing; a tick at least 2 seconds of wall clock after the
hold started completes with performance 1 minus 10 over 20, which is
0.5; and a tick that loses the match, for example at heading 90, before
the 2 seconds have elapsed resets the hold state. -/
theorem verifyDirection_hold_behaviour :
    (∀ (m : Vec3) (s : TrackState) (now : ℝ),
        normalizedHeading m = 10 →
        s.directionMatched = false →
        ((verifyDirectionChallenge faceNorth m
            (adjustThresholds 1) s now).1.completed = false ∧
         (verifyDirectionChallenge faceNorth m
            (adjustThresholds 1) s now).2.directionMatched = true ∧
         (verifyDirectionChallenge faceNorth m
            (adjustThresholds 1) s now).2.lastDirectionMatchTime = now)) ∧
    (∀ (m : Vec3) (s : TrackState) (now : ℝ),
        normalizedHeading m = 10 →
        s.directionMatched = true →
        (now - s.lastDirectionMatchTime) / 1000 ≥ 2 →
        ((verifyDirectionChallenge faceNorth m
            (adjustThresholds 1) s now).1.completed = true ∧
         (verifyDirectionChallenge faceNorth m
            (adjustThresholds 1) s now).1.performance = 1 - 10 / 20 ∧
         ((1 : ℝ) - 10 / 20 = 0.5))) ∧
    (∀ (m : Vec3) (s : TrackState) (now : ℝ),
        normalizedHeading m = 90 →
        (now - s.lastDirectionMatchTime) / 1000 < 2 →
        ((verifyDirectionChallenge faceNorth m
            (adjustThresholds 1) s now).1.completed = false ∧
         (verifyDirectionChallenge faceNorth m
            (adjustThresholds 1) s now).2.directionMatched = false ∧
         (verifyDirectionChallenge faceNorth m
            (adjustThresholds 1) s now).2.lastDirectionMatchTime = 0)) := by
  refine ⟨?first, ?complete, ?lost⟩
  case first =>
    intro m s now h10 hm
    unfold verifyDirectionChallenge
    rw [headingDiff_ten m h10, faceNorth_tolerance]
    rw [if_pos (show (10 : ℝ) ≤ 20 by norm_num), if_pos hm]
    exact ⟨rfl, rfl, rfl⟩
  case complete =>
    intro m s now h10 hm hhold
    unfold verifyDirectionChallenge
    rw [headingDiff_ten m h10, faceNorth_tolerance]
    rw [if_pos (show (10 : ℝ) ≤ 20 by norm_num), if_neg (by simp [hm]),
      if_pos hhold]
    exact ⟨rfl, by norm_num, by norm_num⟩
  case lost =>
    intro m s now h90 hhold
    unfold verifyDirectionChallenge
    rw [headingDiff_ninety m h90, faceNorth_tolerance]
    rw [if_neg (show ¬((90 : ℝ) ≤ 20) by norm_num)]
    exact ⟨rfl, rfl, rfl⟩

/-- Witness for C5 at concrete samples, states and times: first match at
time 5, completion at time 3000 with the hold started at 1000, and a
match lost at heading 90 one second into the hold. -/
theorem verifyDirection_hold_behaviour_witness :
    ((verifyDirectionChallenge faceNorth
        ⟨Real.cos (Real.pi / 18), Real.sin (Real.pi / 18), 0⟩
        (adjustThresholds 1) resetChallengeTracking 5).2.directionMatched = true ∧
     (verifyDirectionChallenge faceNorth
        ⟨Real.cos (Real.pi / 18), Real.sin (Real.pi / 18), 0⟩
        (adjustThresholds 1) resetChallengeTracking 5).2.lastDirectionMatchTime = 5) ∧
    ((verifyDirectionChallenge faceNorth
        ⟨Real.cos (Real.pi / 18), Real.sin (Real.pi / 18), 0⟩
        (adjustThresholds 1) (⟨0, 0, 0, [], true, 1000, 0⟩ : TrackState)
        3000).1.completed = true ∧
     (verifyDirectionChallenge faceNorth
        ⟨Real.cos (Real.pi / 18), Real.sin (Real.pi / 18), 0⟩
        (adjustThresholds 1) (⟨0, 0, 0, [], true, 1000, 0⟩ : TrackState)
        3000).1.performance = 1 - 10 / 20) ∧
    (verifyDirectionChallenge faceNorth
        ⟨0, 1, 0⟩ (adjustThresholds 1) (⟨0, 0, 0, [], true, 0, 0⟩ : TrackState)
        1000).2.directionMatched = false := by
  refine ⟨⟨?_, ?_⟩, ⟨?_, ?_⟩, ?_⟩
  · exact (verifyDirection_hold_behaviour.1 _ _ 5 normalizedHeading_ten rfl).2.1
  · exact (verifyDirection_hold_behaviour.1 _ _ 5 normalizedHeading_ten rfl).2.2
  · exact (verifyDirection_hold_behaviour.2.1 _ _ 3000 normalizedHeading_ten rfl
      (by norm_num)).1
  · exact (verifyDirection_hold_behaviour.2.1 _ _ 3000 normalizedHeading_ten rfl
      (by norm_num)).2.1
  · exact (verifyDirection_hold_behaviour.2.2 _ _ 1000 normalizedHeading_ninety
      (by norm_num)).2.1


/-- Witness for C9 at the concrete draw one half: only the accelerometer
gives a RUN challenge, and no sensors give the BASIC fallback. -/
theorem generateChallenge_sensor_gating_witness :
    (0 : ℝ) ≤ 1 / 2 ∧ (1 / 2 : ℝ) < 1 ∧
    (generateChallenge ⟨true, false, false⟩ (1 / 2) (1 / 2)).type = "RUN" ∧
    generateChallenge ⟨false, false, false⟩ (1 / 2) (1 / 2) =
      { type := "BASIC", instruction := "Shake your device",
        hint := "No advanced sensors detected, just shake the device" } := by
  refine ⟨by norm_num, by norm_num, ?_, ?_⟩
  · exact (generateChallenge_sensor_gating (1 / 2) (1 / 2) (by norm_num)
      (by norm_num)).1
  · exact (generateChallenge_sensor_gating (1 / 2) (1 / 2) (by norm_num)
      (by norm_num)).2 (1 / 2) (1 / 2)

end StepMasters
